import Mathlib

set_option maxRecDepth 8000

/-!
A verification development for the two maintenance scripts in this
repository.  Both scripts rewrite one target source file on disk:

* `fix_builtup.py` reads the file as a list of lines, splices a hardcoded
  replacement block after a start-marker line, skipping original lines
  until an end-of-region test fires, and writes the result back (or
  reports that the marker was not found).
* `reconstruct_inventory.py` overwrites the file with one fixed literal.

Documents are modelled as `List Char` (file contents) and
`List (List Char)` (the line list produced by `readlines`).  The scan
loop of `fix_builtup.py` is embedded as a step function over an explicit
state; the possible `IndexError` of its lookahead is modelled by
`Option`, with `none` standing for the aborted run.
-/

/-- Prefix test on character lists: `listStarts pat s` holds when `pat`
is an initial segment of `s`. -/
def listStarts : List Char → List Char → Bool
  | [], _ => true
  | _ :: _, [] => false
  | p :: ps, c :: cs => if p = c then listStarts ps cs else false

/-- Python's substring containment `pat in s` on character lists. -/
def strContains : List Char → List Char → Bool
  | pat, [] => listStarts pat []
  | pat, c :: cs => listStarts pat (c :: cs) || strContains pat cs

/-- Python's `lines.index(line)`: the index of the first element equal to
`line` (length of the list when absent; the scripts only call it on
elements of the list). -/
def idxOf (l : List Char) : List (List Char) → Nat
  | [] => 0
  | x :: xs => if x = l then 0 else idxOf l xs + 1

/-- Python's `f.readlines()` on a text file containing `s`: split after
each newline character, each piece keeping its terminator; a final piece
without a terminator is kept only when nonempty. -/
def readlinesAux : List Char → List Char → List (List Char)
  | [], acc => if acc.isEmpty then [] else [acc.reverse]
  | c :: cs, acc =>
    if c = '\n' then (acc.reverse ++ [c]) :: readlinesAux cs []
    else readlinesAux cs (c :: acc)

/-- Python's `f.readlines()` for a file holding the characters `s`. -/
def readlines (s : List Char) : List (List Char) := readlinesAux s []

/-- Python's `f.writelines(ls)`: plain concatenation. -/
def writelines (ls : List (List Char)) : List Char := ls.flatten

def start_marker : List Char := "// ─── Builtup Detail/Type Fetching effects ───────────────────────────────────".data

def end_marker : List Char := "    useEffect(() => \x7b\n".data

def replacement_end_marker : List Char := "    useEffect(() => \x7b\n        const fetchSystemData = async () => \x7b".data

def new_code : List Char := "    useEffect(() => \x7b\n        const fetchBuiltupDetail = async () => \x7b\n            if (!form.subCategory) \x7b setBuiltupDetailLookups([]); return; \x7d\n            try \x7b\n                const scRes = await api.get(\"/lookups\", \x7b params: \x7b lookup_type: \x27SubCategory\x27, lookup_value: form.subCategory \x7d \x7d);\n                const scId = scRes.data?.data?.[0]?._id;\n                if (!scId) \x7b setBuiltupDetailLookups([]); return; \x7d\n                const ptRes = await api.get(\"/lookups\", \x7b params: \x7b lookup_type: \x27PropertyType\x27, parent_lookup_id: scId \x7d \x7d);\n                setBuiltupDetailLookups((ptRes.data?.data || []).map((pt: any) => (\x7b label: pt.lookup_value, value: pt.lookup_value, _id: pt._id \x7d)));\n            \x7d catch (e) \x7b console.error(\"Builtup Detail fetch failed\", e); \x7d\n        \x7d;\n        fetchBuiltupDetail();\n    \x7d, [form.subCategory]);\n\n    useEffect(() => \x7b\n        const fetchBT = async () => \x7b\n            if (!form.builtupDetail) \x7b setBtLookups([]); return; \x7d\n            try \x7b\n                const pt = builtupDetailLookups.find(opt => opt.value === form.builtupDetail);\n                if (!pt?._id) \x7b setBtLookups([]); return; \x7d\n                const btRes = await api.get(\"/lookups\", \x7b params: \x7b lookup_type: \x27BuiltupType\x27, parent_lookup_id: pt._id, limit: 1000 \x7d \x7d);\n                setBtLookups((btRes.data?.data || []).map((bt: any) => (\x7b label: bt.lookup_value, value: bt.lookup_value \x7d)));\n            \x7d catch (e) \x7b console.error(\"BT fetch failed\", e); \x7d\n        \x7d;\n        fetchBT();\n    \x7d, [form.builtupDetail, builtupDetailLookups]);\n\n".data

def code : List Char := "import React, \x7b useState, useEffect \x7d from \"react\";\nimport \x7b\n    View, Text, TextInput, TouchableOpacity, StyleSheet,\n    ScrollView, ActivityIndicator, Alert, KeyboardAvoidingView, Platform, SafeAreaView,\n    Modal, FlatList\n\x7d from \"react-native\";\nimport \x7b useRouter \x7d from \"expo-router\";\nimport api from \"./services/api\";\nimport \x7b Ionicons \x7d from \"@expo/vector-icons\";\n\n// ─── Reusable Components ──────────────────────────────────────────────────────\n\nfunction SectionHeader(\x7b title, icon \x7d: \x7b title: string; icon: string \x7d) \x7b\n    return (\n        <View style=\x7bstyles.sectionHeader\x7d>\n            <Text style=\x7bstyles.sectionIcon\x7d>\x7bicon\x7d</Text>\n            <Text style=\x7bstyles.sectionTitle\x7d>\x7btitle\x7d</Text>\n        </View>\n    );\n\x7d\n\nfunction Field(\x7b label, required, children \x7d: \x7b label: string; required?: boolean; children: React.ReactNode \x7d) \x7b\n    return (\n        <View style=\x7bstyles.field\x7d>\n            <Text style=\x7bstyles.fieldLabel\x7d>\n                \x7blabel\x7d\n                \x7brequired && <Text style=\x7bstyles.required\x7d> *</Text>\x7d\n            </Text>\n            \x7bchildren\x7d\n        </View>\n    );\n\x7d\n\nfunction Input(\x7b\n    value, onChangeText, placeholder, keyboardType, multiline, numberOfLines, editable = true,\n\x7d: \x7b\n    value: string; onChangeText: (t: string) => void; placeholder?: string;\n    keyboardType?: any; multiline?: boolean; numberOfLines?: number; editable?: boolean;\n\x7d) \x7b\n    return (\n        <TextInput\n            style=\x7b[styles.input, multiline && \x7b height: 80, textAlignVertical: \"top\" \x7d, !editable && \x7b backgroundColor: \"#F1F5F9\", color: \"#94A3B8\" \x7d]\x7d\n            value=\x7bvalue\x7d\n            onChangeText=\x7bonChangeText\x7d\n            placeholder=\x7bplaceholder ?? \"\"\x7d\n            placeholderTextColor=\"#9CA3AF\"\n            keyboardType=\x7bkeyboardType ?? \"default\"\x7d\n            multiline=\x7bmultiline\x7d\n            numberOfLines=\x7bnumberOfLines\x7d\n            editable=\x7beditable\x7d\n        />\n    );\n\x7d\n\nfunction SelectButton(\x7b\n    value, placeholder, options, onSelect,\n\x7d: \x7b\n    value: string; placeholder: string; options: \x7b label: string, value: string \x7d[]; onSelect: (v: string) => void;\n\x7d) \x7b\n    if (options.length === 0) return <Text style=\x7b\x7b color: \x27#9CA3AF\x27, fontSize: 13, padding: 8 \x7d\x7d>\x7bplaceholder\x7d</Text>;\n\n    return (\n        <ScrollView horizontal showsHorizontalScrollIndicator=\x7bfalse\x7d style=\x7bstyles.chipRow\x7d>\n            \x7boptions.map((opt, idx) => (\n                <TouchableOpacity\n                    key=\x7b\x60$\x7bopt.value || idx\x7d-$\x7bidx\x7d\x60\x7d\n                    style=\x7b[styles.chip, value === opt.value && styles.chipSelected]\x7d\n                    onPress=\x7b() => onSelect(opt.value === value ? \"\" : opt.value)\x7d\n                >\n                    <Text style=\x7b[styles.chipText, value === opt.value && styles.chipTextSelected]\x7d>\x7bopt.label\x7d</Text>\n                </TouchableOpacity>\n            ))\x7d\n        </ScrollView>\n    );\n\x7d\n\n// ─── Searchable Dropdown ──────────────────────────────────────────────────────\n\nfunction SearchableDropdown(\x7b\n    visible, onClose, options, onSelect, placeholder\n\x7d: \x7b\n    visible: boolean; onClose: () => void; options: \x7b label: string, value: string \x7d[]; onSelect: (v: string) => void; placeholder: string;\n\x7d) \x7b\n    const [search, setSearch] = useState(\"\");\n    const filtered = options.filter(o => o.label.toLowerCase().includes(search.toLowerCase()));\n\n    return (\n        <Modal visible=\x7bvisible\x7d animationType=\"slide\" transparent=\x7btrue\x7d onRequestClose=\x7bonClose\x7d>\n            <View style=\x7bstyles.modalOverlay\x7d>\n                <View style=\x7bstyles.modalContent\x7d>\n                    <View style=\x7bstyles.modalHeader\x7d>\n                        <Text style=\x7bstyles.modalTitle\x7d>\x7bplaceholder\x7d</Text>\n                        <TouchableOpacity onPress=\x7bonClose\x7d hitSlop=\x7b\x7b top: 10, bottom: 10, left: 10, right: 10 \x7d\x7d>\n                            <Ionicons name=\"close\" size=\x7b24\x7d color=\"#64748b\" />\n                        </TouchableOpacity>\n                    </View>\n                    <TextInput\n                        style=\x7bstyles.modalSearchInput\x7d\n                        placeholder=\"Search...\"\n                        value=\x7bsearch\x7d\n                        onChangeText=\x7bsetSearch\x7d\n                        placeholderTextColor=\"#9ca3af\"\n                    />\n                    <FlatList\n                        data=\x7bfiltered\x7d\n                        keyExtractor=\x7b(item, idx) => \x60$\x7bitem.value\x7d-$\x7bidx\x7d\x60\x7d\n                        renderItem=\x7b(\x7b item \x7d) => (\n                            <TouchableOpacity style=\x7bstyles.modalListItem\x7d onPress=\x7b() => \x7b onSelect(item.value); onClose(); \x7d\x7d>\n                                <Text style=\x7bstyles.modalListItemText\x7d>\x7bitem.label\x7d</Text>\n                            </TouchableOpacity>\n                        )\x7d\n                        ListEmptyComponent=\x7b<Text style=\x7bstyles.modalEmptyText\x7d>No results found</Text>\x7d\n                        keyboardShouldPersistTaps=\"handled\"\n                    />\n                </View>\n            </View>\n        </Modal>\n    );\n\x7d\n\n// ─── Main Form ────────────────────────────────────────────────────────────────\n\ninterface BuiltupRow \x7b\n    floor: string;\n    cluster: string;\n    length: string;\n    width: string;\n    totalArea: string;\n\x7d\n\ninterface OwnerLink \x7b\n    id: string;\n    name: string;\n    mobile: string;\n    role: string;\n    relationship: string;\n\x7d\n\ninterface InventoryForm \x7b\n    // Basic Unit Details\n    category: string;\n    subCategory: string;\n    unitNo: string;\n    unitType: string;\n    projectName: string;\n    projectId: string;\n    block: string;\n    size: string;\n    direction: string;\n    facing: string;\n    roadWidth: string;\n    ownership: string;\n\n    // Builtup Details\n    builtupDetail: string;\n    builtupType: string;\n    builtupDetails: BuiltupRow[];\n\n    // Furnishing & Dates\n    occupationDate: string;\n    ageOfConstruction: string;\n    possessionStatus: string;\n    furnishType: string;\n    furnishedItems: string;\n\n    // Location\n    locationSearch: string;\n    address: \x7b\n        country: string;\n        state: string;\n        city: string;\n        location: string;\n        tehsil: string;\n        postOffice: string;\n        pinCode: string;\n        hNo: string;\n        street: string;\n        area: string;\n    \x7d;\n\n    // Owners\n    owners: OwnerLink[];\n\n    // System Assignment\n    assignedTo: string;\n    team: string;\n    status: string;\n    intent: string;\n    visibleTo: string;\n\x7d\n\nconst INITIAL: InventoryForm = \x7b\n    category: \"Residential\", subCategory: \"\", unitNo: \"\", unitType: \"\",\n    projectName: \"\", projectId: \"\", block: \"\", size: \"\",\n    direction: \"\", facing: \"\", roadWidth: \"\", ownership: \"\",\n    builtupDetail: \"\", builtupType: \"\",\n    builtupDetails: [\x7b floor: \"Ground Floor\", cluster: \"\", length: \"\", width: \"\", totalArea: \"\" \x7d],\n    occupationDate: \"\", ageOfConstruction: \"\", possessionStatus: \"\", furnishType: \"\", furnishedItems: \"\",\n    locationSearch: \"\",\n    address: \x7b country: \"\", state: \"\", city: \"\", location: \"\", tehsil: \"\", postOffice: \"\", pinCode: \"\", hNo: \"\", street: \"\", area: \"\" \x7d,\n    owners: [],\n    assignedTo: \"\", team: \"\", status: \"Active\", intent: \"Sell\", visibleTo: \"Everyone\",\n\x7d;\n\nexport default function AddInventoryScreen() \x7b\n    const router = useRouter();\n    const [form, setForm] = useState<InventoryForm>(INITIAL);\n    const [saving, setSaving] = useState(false);\n    const [projectModalVisible, setProjectModalVisible] = useState(false);\n\n    // Master Data States\n    const [propertyConfig, setPropertyConfig] = useState<any>(\x7b\x7d);\n    const [masterFields, setMasterFields] = useState<any>(\x7b\x7d);\n    const [projects, setProjects] = useState<any[]>([]);\n    const [sizes, setSizes] = useState<any[]>([]);\n\n    const [facingLookups, setFacingLookups] = useState<any[]>([]);\n\n    const [teams, setTeams] = useState<any[]>([]);\n    const [users, setUsers] = useState<any[]>([]);\n\n    // Owner Search State\n    const [ownerSearch, setOwnerSearch] = useState(\"\");\n    const [searchResults, setSearchResults] = useState<any[]>([]);\n    const [searching, setSearching] = useState(false);\n    const [selectedOwner, setSelectedOwner] = useState<any>(null);\n    const [linkData, setLinkData] = useState(\x7b role: \"Property Owner\", relationship: \"\" \x7d);\n\n    // Location Lookup States\n    const [countries, setCountries] = useState<any[]>([]);\n    const [states, setStates] = useState<any[]>([]);\n    const [cities, setCities] = useState<any[]>([]);\n    const [locations, setLocations] = useState<any[]>([]);\n    const [tehsils, setTehsils] = useState<any[]>([]);\n    const [postOffices, setPostOffices] = useState<any[]>([]);\n\n    const [activeLocDropdown, setActiveLocDropdown] = useState<string | null>(null);\n    const [builtupDetailLookups, setBuiltupDetailLookups] = useState<any[]>([]);\n    const [btLookups, setBtLookups] = useState<any[]>([]);\n\n    const set = (key: keyof InventoryForm) => (val: any) =>\n        setForm((f) => (\x7b ...f, [key]: val \x7d));\n\n    const setAddress = (key: keyof InventoryForm[\x27address\x27]) => (val: string) => \x7b\n        setForm(f => \x7b\n            const newAddr = \x7b ...f.address, [key]: val \x7d;\n            // Cascading resets\n            if (key === \x27country\x27) \x7b newAddr.state = \"\"; newAddr.city = \"\"; newAddr.location = \"\"; newAddr.tehsil = \"\"; newAddr.postOffice = \"\"; newAddr.pinCode = \"\"; \x7d\n            if (key === \x27state\x27) \x7b newAddr.city = \"\"; newAddr.location = \"\"; newAddr.tehsil = \"\"; newAddr.postOffice = \"\"; newAddr.pinCode = \"\"; \x7d\n            if (key === \x27city\x27) \x7b newAddr.location = \"\"; newAddr.tehsil = \"\"; newAddr.postOffice = \"\"; newAddr.pinCode = \"\"; \x7d\n            if (key === \x27location\x27) \x7b newAddr.postOffice = \"\"; newAddr.pinCode = \"\"; \x7d\n            return \x7b ...f, address: newAddr \x7d;\n        \x7d);\n    \x7d;\n\n    // ─── Location Data Fetching Effects ──────────────────────────────────────────\n    const fetchLocLookup = async (lookup_type: string, parent_id: string | null = null) => \x7b\n        try \x7b\n            const params: any = \x7b lookup_type, limit: 1000 \x7d;\n            if (parent_id) params.parent_lookup_id = parent_id;\n\n            const res = await api.get(\"/lookups\", \x7b params \x7d);\n            return res.data?.data || [];\n        \x7d catch (error) \x7b\n            console.error(\x60Fetch error for $\x7blookup_type\x7d:\x60, error);\n            return [];\n        \x7d\n    \x7d;\n\n    useEffect(() => \x7b fetchLocLookup(\"Country\").then(setCountries); \x7d, []);\n\n    useEffect(() => \x7b\n        if (!form.address.country) \x7b setStates([]); return; \x7d\n        fetchLocLookup(\"State\", form.address.country).then(setStates);\n    \x7d, [form.address.country]);\n\n    useEffect(() => \x7b\n        if (!form.address.state) \x7b setCities([]); return; \x7d\n        fetchLocLookup(\"City\", form.address.state).then(setCities);\n    \x7d, [form.address.state]);\n\n    useEffect(() => \x7b\n        if (!form.address.city) \x7b setLocations([]); setTehsils([]); return; \x7d\n        fetchLocLookup(\"Location\", form.address.city).then(setLocations);\n        fetchLocLookup(\"Tehsil\", form.address.city).then(setTehsils);\n    \x7d, [form.address.city]);\n\n    useEffect(() => \x7b\n        if (!form.address.location) \x7b setPostOffices([]); return; \x7d\n        fetchLocLookup(\"PostOffice\", form.address.location).then(setPostOffices);\n    \x7d, [form.address.location]);\n\n    useEffect(() => \x7b\n        if (!form.address.postOffice) return;\n        fetchLocLookup(\"Pincode\", form.address.postOffice).then(data => \x7b\n            if (data.length === 1) setAddress(\x27pinCode\x27)(data[0].lookup_value);\n        \x7d);\n    \x7d, [form.address.postOffice]);\n\n    // ─── Builtup Detail/Type Fetching effects ───────────────────────────────────\n    useEffect(() => \x7b\n        const fetchBuiltupDetail = async () => \x7b\n            if (!form.subCategory) \x7b setBuiltupDetailLookups([]); return; \x7d\n            try \x7b\n                const scRes = await api.get(\"/lookups\", \x7b params: \x7b lookup_type: \x27SubCategory\x27, lookup_value: form.subCategory \x7d \x7d);\n                const scId = scRes.data?.data?.[0]?._id;\n                if (!scId) \x7b setBuiltupDetailLookups([]); return; \x7d\n                const ptRes = await api.get(\"/lookups\", \x7b params: \x7b lookup_type: \x27PropertyType\x27, parent_lookup_id: scId \x7d \x7d);\n                setBuiltupDetailLookups((ptRes.data?.data || []).map((pt: any) => (\x7b label: pt.lookup_value, value: pt.lookup_value, _id: pt._id \x7d)));\n            \x7d catch (e) \x7b console.error(\"Builtup Detail fetch failed\", e); \x7d\n        \x7d;\n        fetchBuiltupDetail();\n    \x7d, [form.subCategory]);\n\n    useEffect(() => \x7b\n        const fetchBT = async () => \x7b\n            if (!form.builtupDetail) \x7b setBtLookups([]); return; \x7d\n            try \x7b\n                const pt = builtupDetailLookups.find(opt => opt.value === form.builtupDetail);\n                if (!pt?._id) \x7b setBtLookups([]); return; \x7d\n                const btRes = await api.get(\"/lookups\", \x7b params: \x7b lookup_type: \x27BuiltupType\x27, parent_lookup_id: pt._id, limit: 1000 \x7d \x7d);\n                setBtLookups((btRes.data?.data || []).map((bt: any) => (\x7b label: bt.lookup_value, value: bt.lookup_value \x7d)));\n            \x7d catch (e) \x7b console.error(\"BT fetch failed\", e); \x7d\n        \x7d;\n        fetchBT();\n    \x7d, [form.builtupDetail, builtupDetailLookups]);\n\n    useEffect(() => \x7b\n        const fetchSystemData = async () => \x7b\n            try \x7b\n                const [pc, mf, pj, sz, tm, ur] = await Promise.all([\n                    api.get(\"/system-settings/property_config\"),\n                    api.get(\"/system-settings/master_fields\"),\n                    api.get(\"/projects?limit=100\"),\n                    api.get(\"/projects/sizes/all?limit=1000\"), // Assuming this endpoint exists based on AddSizeModal\n                    api.get(\"/lookups?lookup_type=Team&limit=100\"),\n                    api.get(\"/users?limit=1000\"),\n                ]);\n                setPropertyConfig(pc.data?.data || \x7b\x7d);\n                setMasterFields(mf.data?.data || \x7b\x7d);\n                setProjects(pj.data?.data || []);\n                setSizes(sz.data?.data || []);\n                setTeams((tm.data?.data || []).map((t: any) => (\x7b label: t.lookup_value, value: t._id \x7d)));\n                setUsers((ur.data?.records || ur.data?.data || []).map((u: any) => (\x7b label: u.name || u.fullName, value: u._id, team: u.team \x7d)));\n            \x7d catch (e) \x7b console.error(\"System data fetch failed\", e); \x7d\n        \x7d;\n        fetchSystemData();\n    \x7d, []);\n\n    const handleSave = async () => \x7b\n        if (!form.projectName || !form.unitNo || !form.subCategory) \x7b\n            Alert.alert(\"Missing Fields\", \"Please fill in Project, Unit No, and Sub Category.\");\n            return;\n        \x7d\n        setSaving(true);\n        try \x7b\n            // Helper to get ID for lookup values\n            const findId = (items: any[], val: string) => items.find(i => i.lookup_value === val)?._id || val;\n\n            const payload = \x7b\n                ...form,\n                category: findId(masterFields.categories || [], form.category),\n                subCategory: findId(masterFields.subCategories || [], form.subCategory),\n                // etc. (Add all mapping as per web)\n            \x7d;\n\n            const res = await api.post(\"/inventory\", payload);\n            if (res.data?.success) \x7b\n                Alert.alert(\"Success\", \"Inventory saved successfully.\");\n                router.replace(\"/(tabs)/inventory\");\n            \x7d else \x7b\n                throw new Error(res.data?.message || \"Failed to save\");\n            \x7d\n        \x7d catch (e: any) \x7b\n            Alert.alert(\"Error\", e.message || \"Failed to save inventory.\");\n        \x7d finally \x7b\n            setSaving(false);\n        \x7d\n    \x7d;\n\n    return (\n        <SafeAreaView style=\x7bstyles.container\x7d>\n            <KeyboardAvoidingView behavior=\x7bPlatform.OS === \x27ios\x27 ? \x27padding\x27 : undefined\x7d style=\x7b\x7b flex: 1 \x7d\x7d>\n                <View style=\x7bstyles.header\x7d>\n                    <TouchableOpacity\n                        onPress=\x7b() => \x7b\n                            const isDirty = JSON.stringify(form) !== JSON.stringify(INITIAL);\n                            if (isDirty) \x7b\n                                Alert.alert(\"Discard Changes?\", \"You have unsaved changes. Are you sure you want to go back?\", [\n                                    \x7b text: \"Keep Editing\", style: \"cancel\" \x7d,\n                                    \x7b text: \"Discard\", style: \"destructive\", onPress: () => router.back() \x7d\n                                ]);\n                            \x7d else \x7b\n                                router.back();\n                            \x7d\n                        \x7d\x7d\n                    >\n                        <Ionicons name=\"arrow-back\" size=\x7b24\x7d color=\"#1E293B\" />\n                    </TouchableOpacity>\n                    <Text style=\x7bstyles.headerTitle\x7d>Add Inventory</Text>\n                    <TouchableOpacity onPress=\x7bhandleSave\x7d disabled=\x7bsaving\x7d>\n                        \x7bsaving ? <ActivityIndicator size=\"small\" color=\"#2563EB\" /> : <Text style=\x7bstyles.saveHeader\x7d>Save</Text>\x7d\n                    </TouchableOpacity>\n                </View>\n\n                <ScrollView style=\x7bstyles.content\x7d showsVerticalScrollIndicator=\x7bfalse\x7d>\n                    <SectionHeader title=\"Basic Unit Details\" icon=\"🏢\" />\n                    <View style=\x7bstyles.card\x7d>\n                        <Field label=\"Category\" required>\n                            <SelectButton value=\x7bform.category\x7d placeholder=\"Select Category\"\n                                options=\x7b[\x27Residential\x27, \x27Commercial\x27, \x27Industrial\x27, \x27Agricultural\x27, \x27Institutional\x27].map(c => (\x7b label: c, value: c \x7d))\x7d\n                                onSelect=\x7b(val) => setForm(f => (\x7b ...f, category: val, subCategory: \"\", builtupDetail: \"\", builtupType: \"\" \x7d))\x7d />\n                        </Field>\n\n                        <Field label=\"Sub Category\" required>\n                            <SelectButton value=\x7bform.subCategory\x7d placeholder=\"Select Category first\"\n                                options=\x7b(propertyConfig[form.category]?.subCategories || []).map((sc: any) => (\x7b label: sc.name, value: sc.name \x7d))\x7d\n                                onSelect=\x7b(val) => setForm(f => (\x7b ...f, subCategory: val, builtupDetail: \"\", builtupType: \"\" \x7d))\x7d />\n                        </Field>\n\n                        <Field label=\"Project Name\" required>\n                            <TouchableOpacity style=\x7bstyles.selector\x7d onPress=\x7b() => setProjectModalVisible(true)\x7d>\n                                <Text style=\x7b[styles.selectorText, !form.projectName && \x7b color: \"#9CA3AF\" \x7d]\x7d>\n                                    \x7bform.projectName || \"Select Project\"\x7d\n                                </Text>\n                                <Ionicons name=\"chevron-down\" size=\x7b20\x7d color=\"#64748B\" />\n                            </TouchableOpacity>\n                        </Field>\n\n                        <Field label=\"Block\" required>\n                            <SelectButton value=\x7bform.block\x7d placeholder=\"Select Project first\"\n                                options=\x7b(projects.find(p => p.name === form.projectName)?.blocks || []).map((b: any) => (\x7b label: typeof b === \x27string\x27 ? b : b.name, value: typeof b === \x27string\x27 ? b : b.name \x7d))\x7d\n                                onSelect=\x7bset(\"block\")\x7d />\n                        </Field>\n\n                        <Field label=\"Unit No.\" required>\n                            <Input value=\x7bform.unitNo\x7d onChangeText=\x7bset(\"unitNo\")\x7d placeholder=\"e.g. 101\" />\n                        </Field>\n                    </View>\n\n                    <SectionHeader title=\"Builtup Details\" icon=\"📐\" />\n                    <View style=\x7bstyles.card\x7d>\n                        <Field label=\"Built-up Detail\" required>\n                            <SelectButton value=\x7bform.builtupDetail\x7d placeholder=\"Select Sub Category first\" options=\x7bbuiltupDetailLookups\x7d\n                                onSelect=\x7b(val) => setForm(f => (\x7b ...f, builtupDetail: val, builtupType: \"\" \x7d))\x7d />\n                        </Field>\n\n                        <Field label=\"Built-up Type\">\n                            <SelectButton value=\x7bform.builtupType\x7d placeholder=\"Select Built-up Detail first\" options=\x7bbtLookups\x7d onSelect=\x7bset(\"builtupType\")\x7d />\n                        </Field>\n                    </View>\n\n                    \x7b/* Additional sections would go here... */\x7d\n\n                    <View style=\x7bstyles.footer\x7d>\n                        <TouchableOpacity style=\x7bstyles.saveBtn\x7d onPress=\x7bhandleSave\x7d disabled=\x7bsaving\x7d>\n                            \x7bsaving ? <ActivityIndicator color=\"#fff\" /> : <Text style=\x7bstyles.saveBtnText\x7d>Save Inventory</Text>\x7d\n                        </TouchableOpacity>\n                    </View>\n                </ScrollView>\n\n                <SearchableDropdown\n                    visible=\x7bprojectModalVisible\x7d\n                    onClose=\x7b() => setProjectModalVisible(false)\x7d\n                    options=\x7bprojects.map(p => (\x7b label: p.name, value: p.name \x7d))\x7d\n                    placeholder=\"Search Project\"\n                    onSelect=\x7b(val) => setForm(f => (\x7b ...f, projectName: val, projectId: projects.find(p => p.name === val)?._id || \"\", block: \"\", size: \"\" \x7d))\x7d\n                />\n            </KeyboardAvoidingView>\n        </SafeAreaView>\n    );\n\x7d\n\nconst styles = StyleSheet.create(\x7b\n    container: \x7b flex: 1, backgroundColor: \"#F8FAFC\" \x7d,\n    header: \x7b flexDirection: \"row\", alignItems: \"center\", justifyContent: \"space-between\", padding: 16, backgroundColor: \"#fff\", borderBottomWidth: 1, borderBottomColor: \"#E2E8F0\" \x7d,\n    headerTitle: \x7b fontSize: 18, fontWeight: \"700\", color: \"#1E293B\" \x7d,\n    saveHeader: \x7b fontSize: 16, fontWeight: \"600\", color: \"#2563EB\" \x7d,\n    content: \x7b flex: 1, padding: 16 \x7d,\n    sectionHeader: \x7b flexDirection: \"row\", alignItems: \"center\", marginTop: 24, marginBottom: 12 \x7d,\n    sectionIcon: \x7b fontSize: 20, marginRight: 8 \x7d,\n    sectionTitle: \x7b fontSize: 16, fontWeight: \"700\", color: \"#1E293B\" \x7d,\n    card: \x7b backgroundColor: \"#fff\", borderRadius: 12, padding: 16, borderWidth: 1, borderColor: \"#E2E8F0\" \x7d,\n    field: \x7b marginBottom: 16 \x7d,\n    fieldLabel: \x7b fontSize: 14, fontWeight: \"600\", color: \"#475569\", marginBottom: 8 \x7d,\n    required: \x7b color: \"#EF4444\" \x7d,\n    input: \x7b height: 44, borderWidth: 1, borderColor: \"#E2E8F0\", borderRadius: 8, paddingHorizontal: 12, fontSize: 15, color: \"#1E293B\" \x7d,\n    selector: \x7b height: 44, borderWidth: 1, borderColor: \"#E2E8F0\", borderRadius: 8, paddingHorizontal: 12, flexDirection: \"row\", alignItems: \"center\", justifyContent: \"space-between\" \x7d,\n    selectorText: \x7b fontSize: 15, color: \"#1E293B\" \x7d,\n    chipRow: \x7b flexDirection: \"row\" \x7d,\n    chip: \x7b paddingHorizontal: 16, paddingVertical: 8, borderRadius: 20, backgroundColor: \"#F1F5F9\", marginRight: 8, marginBottom: 8, borderWidth: 1, borderColor: \"#E2E8F0\" \x7d,\n    chipSelected: \x7b backgroundColor: \"#EFF6FF\", borderColor: \"#3B82F6\" \x7d,\n    chipText: \x7b fontSize: 13, fontWeight: \"500\", color: \"#64748B\" \x7d,\n    chipTextSelected: \x7b color: \"#2563EB\" \x7d,\n    footer: \x7b marginTop: 32, marginBottom: 64 \x7d,\n    saveBtn: \x7b backgroundColor: \"#2563EB\", height: 50, borderRadius: 12, justifyContent: \"center\", alignItems: \"center\" \x7d,\n    saveBtnText: \x7b color: \"#fff\", fontSize: 16, fontWeight: \"700\" \x7d,\n    modalOverlay: \x7b flex: 1, backgroundColor: \"rgba(0,0,0,0.5)\", justifyContent: \"flex-end\" \x7d,\n    modalContent: \x7b backgroundColor: \"#fff\", borderTopLeftRadius: 20, borderTopRightRadius: 20, height: \"80%\", padding: 20 \x7d,\n    modalHeader: \x7b flexDirection: \"row\", alignItems: \"center\", justifyContent: \"space-between\", marginBottom: 20 \x7d,\n    modalTitle: \x7b fontSize: 18, fontWeight: \"700\", color: \"#1E293B\" \x7d,\n    modalSearchInput: \x7b height: 44, backgroundColor: \"#F1F5F9\", borderRadius: 10, paddingHorizontal: 16, marginBottom: 16 \x7d,\n    modalListItem: \x7b paddingVertical: 14, borderBottomWidth: 1, borderBottomColor: \"#F1F5F9\" \x7d,\n    modalListItemText: \x7b fontSize: 16, color: \"#1E293B\" \x7d,\n    modalEmptyText: \x7b textAlign: \"center\", color: \"#64748B\", marginTop: 40 \x7d,\n\x7d);\n\"\"\"\n\nwith open(filepath, \"w\") as f:\n    f.write(code)\nprint(\"Successfully reconstructed the file.\")\n".data

/-- The two literal fragments tested inline by the loop's end-of-region
condition in `fix_builtup.py`. -/
def useEffectFrag : List Char := "useEffect(() => \x7b".data

/-- The second inline fragment: the lookahead line must contain it. -/
def fetchSystemDataFrag : List Char := "fetchSystemData".data

/-- The loop state of `fix_builtup.py`: the accumulated output lines and
the `skip` / `found_marker` flags. -/
structure ScanState where
  new_lines : List (List Char)
  skip : Bool
  found_marker : Bool
deriving DecidableEq

/-- The skip-mode end-of-region test of `fix_builtup.py`:
`"useEffect(() => \x7b" in line and "fetchSystemData" in
lines[lines.index(line)+1]`.  Returns `some true` when the region ends,
`some false` when skipping continues, and `none` when the lookahead
index `lines.index(line)+1` falls outside the list (Python's
`IndexError`). -/
def endCheck (lines : List (List Char)) (line : List Char) : Option Bool :=
  if strContains useEffectFrag line then
    match lines.get? (idxOf line lines + 1) with
    | none => none
    | some nxt => some (strContains fetchSystemDataFrag nxt)
  else some false

/-- One iteration of the `for line in lines` loop of `fix_builtup.py`. -/
def step (lines : List (List Char)) (s : ScanState) (line : List Char) :
    Option ScanState :=
  if strContains start_marker line then
    some ⟨s.new_lines ++ [line, new_code], true, true⟩
  else if s.skip then
    match endCheck lines line with
    | none => none
    | some exitSkip =>
      if exitSkip then some ⟨s.new_lines ++ [line], false, s.found_marker⟩
      else some ⟨s.new_lines, true, s.found_marker⟩
  else
    some ⟨s.new_lines ++ [line], false, s.found_marker⟩

/-- The loop of `fix_builtup.py`, iterated from state `s` over the
remaining lines `ls`; the first component `lines` stays the whole
document, as in the source's `lines.index(line)` lookups. -/
def runStep (lines : List (List Char)) :
    ScanState → List (List Char) → Option ScanState
  | s, [] => some s
  | s, l :: ls =>
    match step lines s l with
    | none => none
    | some s2 => runStep lines s2 ls

/-- The whole scan of `fix_builtup.py` over a document's lines. -/
def replaceBlock (lines : List (List Char)) : Option ScanState :=
  runStep lines ⟨[], false, false⟩ lines

/-- Observable outcome of a completed run: the target file's content
afterwards, whether the file was written, and the status lines printed. -/
structure Outcome where
  fileContent : List Char
  wrote : Bool
  printed : List (List Char)
deriving DecidableEq

/-- Status line of `fix_builtup.py` on success. -/
def successMsg : List Char := "Successfully updated the file.".data

/-- Status line of `fix_builtup.py` when the marker is missing. -/
def notFoundMsg : List Char := "Could not find the start marker.".data

/-- A complete run of `fix_builtup.py` against a file holding `content`:
read lines, scan, then either rewrite the file and print the success
line, or leave the file alone and print the not-found line.  `none`
models the run aborting with an uncaught `IndexError` (nothing written,
nothing printed). -/
def fixBuiltupRun (content : List Char) : Option Outcome :=
  match replaceBlock (readlines content) with
  | none => none
  | some st =>
    if st.found_marker then some ⟨writelines st.new_lines, true, [successMsg]⟩
    else some ⟨content, false, [notFoundMsg]⟩

/-- A complete run of `reconstruct_inventory.py` against a file holding
`_prior`: the script writes the fixed literal `code` unconditionally and
executes no print statement (its only `print` sits inside the string
literal `code` itself). -/
def reconstructRun (_prior : List Char) : Outcome := ⟨code, true, []⟩

/-- Sample line: the start marker followed by a newline. -/
def mline : List Char := start_marker ++ "\n".data

/-- Sample line satisfying the first half of the end-of-region test. -/
def xline : List Char := end_marker

/-- Sample lookahead line containing `fetchSystemData`. -/
def zline : List Char := "        const fetchSystemData = async () => \x7b\n".data

/-- Sample neutral line. -/
def yline : List Char := "yy\n".data

/-- Sample neutral line. -/
def wline : List Char := "ww\n".data

/-- Sample neutral line. -/
def tline : List Char := "tt\n".data

/-- Marker test applied to each line by the loop:
`start_marker in line`. -/
def isMarkerLine (l : List Char) : Bool := strContains start_marker l

/-- Does an output element hold the inserted payload block? -/
def isPayload (l : List Char) : Bool := decide (l = new_code)

/-- End-of-region test as the specification words it: a function of the
candidate line and the line immediately following it. -/
def endCheckSpec (line : List Char) (nxt : Option (List Char)) : Option Bool :=
  if strContains useEffectFrag line then
    match nxt with
    | none => none
    | some n => some (strContains fetchSystemDataFrag n)
  else some false

/-- Document used to exhibit non-idempotence: marker line, boundary
line, its distinguishing lookahead, and a tail line. -/
def c4content : List Char := writelines [mline, xline, zline, tline]
/-- The loop distributes over a decomposition of the remaining lines. -/
theorem runStep_append (doc : List (List Char)) (s : ScanState)
    (l1 l2 : List (List Char)) :
    runStep doc s (l1 ++ l2)
      = (runStep doc s l1).bind (fun s2 => runStep doc s2 l2) := by
  induction l1 generalizing s with
  | nil => simp [runStep]
  | cons a as ih =>
    simp only [List.cons_append, runStep]
    cases step doc s a with
    | none => rfl
    | some s2 => exact ih s2

/-- Copy-through: with `skip` off and no marker in sight, every line is
appended unchanged. -/
theorem runStep_copy (doc ls : List (List Char)) (acc : List (List Char))
    (f : Bool) (h : ∀ l ∈ ls, isMarkerLine l = false) :
    runStep doc ⟨acc, false, f⟩ ls = some ⟨acc ++ ls, false, f⟩ := by
  induction ls generalizing acc with
  | nil => simp [runStep]
  | cons a as ih =>
    have ha : isMarkerLine a = false := h a (List.mem_cons_self a as)
    have hrest : ∀ l ∈ as, isMarkerLine l = false :=
      fun l hl => h l (List.mem_cons_of_mem a hl)
    simp only [runStep, step, isMarkerLine] at ha ⊢
    rw [ha]
    simpa [List.append_assoc] using ih (acc ++ [a]) hrest

/-- Skip-through: with `skip` on, no marker, and the end test answering
`some false` on each line, every line is dropped. -/
theorem runStep_skip (doc ls : List (List Char)) (acc : List (List Char))
    (f : Bool) (hm : ∀ l ∈ ls, isMarkerLine l = false)
    (he : ∀ l ∈ ls, endCheck doc l = some false) :
    runStep doc ⟨acc, true, f⟩ ls = some ⟨acc, true, f⟩ := by
  induction ls with
  | nil => simp [runStep]
  | cons a as ih =>
    have ha : isMarkerLine a = false := hm a (List.mem_cons_self a as)
    have hea : endCheck doc a = some false := he a (List.mem_cons_self a as)
    simp only [runStep, step, isMarkerLine] at ha hea ⊢
    rw [ha, hea]
    exact ih (fun l hl => hm l (List.mem_cons_of_mem a hl))
      (fun l hl => he l (List.mem_cons_of_mem a hl))

/-- A single loop iteration only ever appends to the accumulated output. -/
theorem step_mono (doc : List (List Char)) (s : ScanState) (l : List Char)
    (s2 : ScanState) (h : step doc s l = some s2) :
    ∃ u, s2.new_lines = s.new_lines ++ u := by
  unfold step at h
  split at h
  · exact ⟨[l, new_code], by injection h with h2; rw [← h2]⟩
  · split at h
    · split at h
      · exact absurd h (by simp)
      · split at h
        · exact ⟨[l], by injection h with h2; rw [← h2]⟩
        · exact ⟨[], by injection h with h2; rw [← h2]; simp⟩
    · exact ⟨[l], by injection h with h2; rw [← h2]⟩

/-- The loop only ever appends to the accumulated output. -/
theorem runStep_mono (doc : List (List Char)) (ls : List (List Char))
    (s st : ScanState) (h : runStep doc s ls = some st) :
    ∃ u, st.new_lines = s.new_lines ++ u := by
  induction ls generalizing s with
  | nil =>
    simp only [runStep] at h
    exact ⟨[], by injection h with h2; rw [← h2]; simp⟩
  | cons a as ih =>
    simp only [runStep] at h
    cases hs : step doc s a with
    | none => rw [hs] at h; exact absurd h (by simp)
    | some s2 =>
      rw [hs] at h
      obtain ⟨u1, hu1⟩ := step_mono doc s a s2 hs
      obtain ⟨u2, hu2⟩ := ih s2 h
      exact ⟨u1 ++ u2, by rw [hu2, hu1, List.append_assoc]⟩
/-- Prefix invariant: starting in copy mode with accumulator `acc`, the
final output begins with `acc` followed by all lines up to (excluding)
the first marker line of the remainder. -/
theorem runStep_prefix (doc : List (List Char)) (ls : List (List Char))
    (acc : List (List Char)) (f : Bool) (st : ScanState)
    (h : runStep doc ⟨acc, false, f⟩ ls = some st) :
    ∃ t, st.new_lines = acc ++ ls.take (ls.findIdx isMarkerLine) ++ t := by
  induction ls generalizing acc f with
  | nil =>
    simp only [runStep] at h
    refine ⟨[], ?_⟩
    injection h with h2
    rw [← h2]
    simp
  | cons a as ih =>
    cases ha : isMarkerLine a with
    | true =>
      simp only [runStep, step, isMarkerLine] at h
      rw [show strContains start_marker a = true from ha] at h
      simp only [if_pos rfl] at h
      obtain ⟨u, hu⟩ := runStep_mono doc as ⟨acc ++ [a, new_code], true, true⟩ st (by simpa using h)
      refine ⟨[a, new_code] ++ u, ?_⟩
      simp only [List.findIdx_cons, ha, cond_true, List.take_zero]
      simpa [List.append_assoc] using hu
    | false =>
      simp only [runStep, step, isMarkerLine] at h
      rw [show strContains start_marker a = false from ha] at h
      simp only [Bool.false_eq_true, if_false] at h
      obtain ⟨t, ht⟩ := ih (acc ++ [a]) f (by simpa using h)
      refine ⟨t, ?_⟩
      simp only [List.findIdx_cons, ha, cond_false, List.take_succ_cons]
      simpa [List.append_assoc] using ht

/-- The payload text is a payload element. -/
theorem isPayload_new_code : isPayload new_code = true := by
  simp only [isPayload, decide_eq_true_eq]

/-- A line different from the payload text is not a payload element. -/
theorem isPayload_of_ne (l : List Char) (hl : ¬ l = new_code) :
    isPayload l = false := by
  simp only [isPayload, decide_eq_false_iff_not]
  exact hl

/-- A single iteration adds one payload element exactly when the line
holds the start marker (and the line itself is not the payload text). -/
theorem step_payload_count (doc : List (List Char)) (s : ScanState)
    (l : List Char) (s2 : ScanState) (hl : ¬ l = new_code)
    (h : step doc s l = some s2) :
    List.countP isPayload s2.new_lines
      = List.countP isPayload s.new_lines
        + (if isMarkerLine l then 1 else 0) := by
  unfold step at h
  split at h
  next hc =>
    injection h with h2
    rw [← h2]
    simp [List.countP_append, List.countP_cons, isPayload_of_ne l hl,
      isPayload_new_code, isMarkerLine, hc]
  next hc =>
    have hm : isMarkerLine l = false := by
      simp only [isMarkerLine]
      exact Bool.eq_false_iff.mpr hc
    split at h
    · split at h
      · exact absurd h (by simp)
      · split at h
        · injection h with h2
          rw [← h2]
          simp [List.countP_append, List.countP_cons, isPayload_of_ne l hl, hm]
        · injection h with h2
          rw [← h2]
          simp [hm]
    · injection h with h2
      rw [← h2]
      simp [List.countP_append, List.countP_cons, isPayload_of_ne l hl, hm]
/-- Payload count invariant for the loop: one payload element is added
per marker line among the remaining lines. -/
theorem runStep_payload_count (doc : List (List Char))
    (ls : List (List Char)) (s st : ScanState)
    (hnc : ∀ l ∈ ls, ¬ l = new_code)
    (h : runStep doc s ls = some st) :
    List.countP isPayload st.new_lines
      = List.countP isPayload s.new_lines + List.countP isMarkerLine ls := by
  induction ls generalizing s with
  | nil =>
    simp only [runStep] at h
    injection h with h2
    rw [← h2]
    simp
  | cons a as ih =>
    simp only [runStep] at h
    cases hs : step doc s a with
    | none => rw [hs] at h; exact absurd h (by simp)
    | some s2 =>
      rw [hs] at h
      have ha := step_payload_count doc s a s2 (hnc a (List.mem_cons_self a as)) hs
      have hrest := ih s2 (fun l hl => hnc l (List.mem_cons_of_mem a hl)) h
      rw [hrest, ha, List.countP_cons]
      cases isMarkerLine a with
      | true => simp; omega
      | false => simp

/-- `lines.index(line)` returns `i` when `line` sits at position `i` and
at no earlier position. -/
theorem idxOf_of_getFirst (doc : List (List Char)) (i : Nat) (l : List Char)
    (hi : doc.get? i = some l) (hfirst : ∀ j, j < i → doc.get? j ≠ some l) :
    idxOf l doc = i := by
  induction doc generalizing i with
  | nil => simp [List.get?] at hi
  | cons a as ih =>
    cases i with
    | zero =>
      simp only [List.get?] at hi
      injection hi with hi2
      simp [idxOf, hi2]
    | succ n =>
      have hne : ¬ a = l := by
        intro hEq
        exact hfirst 0 (Nat.succ_pos n) (by simp [List.get?, hEq])
      simp only [idxOf, if_neg hne]
      have := ih n (by simpa [List.get?] using hi)
        (fun j hj => fun hc => hfirst (j + 1) (Nat.succ_lt_succ hj) (by simpa [List.get?] using hc))
      omega


/-- A marker line always appends itself and the payload and turns
skipping on. -/
theorem step_marker (doc : List (List Char)) (s : ScanState) (l : List Char)
    (h : strContains start_marker l = true) :
    step doc s l = some ⟨s.new_lines ++ [l, new_code], true, true⟩ := by
  unfold step
  rw [if_pos h]

/-- A non-marker line in copy mode is appended unchanged. -/
theorem step_copy_line (doc : List (List Char)) (acc : List (List Char))
    (f : Bool) (l : List Char) (h : strContains start_marker l = false) :
    step doc ⟨acc, false, f⟩ l = some ⟨acc ++ [l], false, f⟩ := by
  unfold step
  rw [if_neg (by simp [h])]
  rfl

/-- A non-marker line in skip mode on which the end test fires is
appended, and skipping stops. -/
theorem step_exit (doc : List (List Char)) (acc : List (List Char))
    (f : Bool) (l : List Char) (hm : strContains start_marker l = false)
    (he : endCheck doc l = some true) :
    step doc ⟨acc, true, f⟩ l = some ⟨acc ++ [l], false, f⟩ := by
  unfold step
  rw [if_neg (by simp [hm])]
  simp [he]

/-- Unfolding one loop iteration when the step succeeds. -/
theorem runStep_cons_some (doc : List (List Char)) (s : ScanState)
    (l : List Char) (ls : List (List Char)) (s2 : ScanState)
    (h : step doc s l = some s2) :
    runStep doc s (l :: ls) = runStep doc s2 ls := by
  simp only [runStep, h]
/-- C3: Not-found identity.  When no line of the document contains the
start marker, the run leaves the file byte-identical, performs no write,
and prints the not-found status line. -/
theorem not_found_identity (content : List Char)
    (h : ∀ l ∈ readlines content, isMarkerLine l = false) :
    fixBuiltupRun content = some ⟨content, false, [notFoundMsg]⟩ := by
  unfold fixBuiltupRun replaceBlock
  rw [runStep_copy (readlines content) (readlines content) [] false h]
  simp

/-- Witness for C3 at a concrete two-line document without the marker. -/
theorem not_found_identity_witness :
    fixBuiltupRun (yline ++ tline) = some ⟨yline ++ tline, false, [notFoundMsg]⟩ :=
  not_found_identity (yline ++ tline) (by decide)

/-- C6: Full-replace totality.  A run of `reconstruct_inventory.py`
always leaves the file holding exactly the fixed literal `code`, no
matter what the file held before. -/
theorem full_replace_constant (prior : List Char) :
    reconstructRun prior = ⟨code, true, []⟩ := rfl

/-- C8: Out-of-range lookahead.  On a document whose last line contains
the end fragment, with that line's text not occurring earlier, reached
while skipping, the end-of-region test indexes past the end of the line
list and the run aborts: nothing is written and nothing printed. -/
theorem out_of_range_abort : fixBuiltupRun (mline ++ xline) = none := rfl

/-- C10: Prefix preservation.  Whenever the scan completes, the lines
strictly before the first marker line open the output unchanged. -/
theorem prefix_preserved (doc : List (List Char)) (st : ScanState)
    (h : replaceBlock doc = some st) :
    ∃ t, st.new_lines = doc.take (doc.findIdx isMarkerLine) ++ t := by
  obtain ⟨t, ht⟩ := runStep_prefix doc doc [] false st h
  exact ⟨t, by simpa using ht⟩

/-- Witness for C10 on a document with one line before the marker. -/
theorem prefix_preserved_witness :
    ∃ t, (⟨[wline, mline, new_code], true, true⟩ : ScanState).new_lines
      = ([wline, mline, yline].take
          (([wline, mline, yline] : List (List Char)).findIdx isMarkerLine)) ++ t :=
  prefix_preserved [wline, mline, yline] ⟨[wline, mline, new_code], true, true⟩ rfl
/-- C1: Exact-splice.  On a document holding the start marker on exactly
one line (`ml`), with `bl` the first later line on which the
end-of-region test fires (`some true`, the test answering `some false`
on every line between), the scan's output is: the lines before the
marker, the marker line, the payload, then the document from the
boundary line on — nothing else changed, reordered, added or dropped. -/
theorem exact_splice (pre mid post : List (List Char)) (ml bl : List Char)
    (hml : isMarkerLine ml = true)
    (hpre : ∀ l ∈ pre, isMarkerLine l = false)
    (hmid : ∀ l ∈ mid, isMarkerLine l = false)
    (hbl : isMarkerLine bl = false)
    (hpost : ∀ l ∈ post, isMarkerLine l = false)
    (hmidEnd : ∀ l ∈ mid,
      endCheck (pre ++ ml :: (mid ++ bl :: post)) l = some false)
    (hblEnd : endCheck (pre ++ ml :: (mid ++ bl :: post)) bl = some true) :
    replaceBlock (pre ++ ml :: (mid ++ bl :: post))
      = some ⟨pre ++ ml :: new_code :: bl :: post, false, true⟩ := by
  unfold replaceBlock
  rw [runStep_append, runStep_copy _ pre [] false hpre]
  simp only [Option.bind, List.nil_append]
  rw [runStep_cons_some _ _ _ _ _ (step_marker _ _ _ hml)]
  rw [runStep_append, runStep_skip _ mid (pre ++ [ml, new_code]) true hmid hmidEnd]
  simp only [Option.bind]
  rw [runStep_cons_some _ _ _ _ _ (step_exit _ _ _ _ hbl hblEnd)]
  rw [runStep_copy _ post (pre ++ [ml, new_code] ++ [bl]) true hpost]
  simp [List.append_assoc]

/-- Witness for C1: a three-line document, marker first, boundary on the
second line (its lookahead holding the distinguishing fragment). -/
theorem exact_splice_witness :
    replaceBlock [mline, xline, zline]
      = some ⟨[mline, new_code, xline, zline], false, true⟩ :=
  exact_splice [] [] [zline] mline xline rfl (by simp) (by simp) rfl
    (by decide) (by simp) rfl
/-- C2 counterexample: the end-of-region decision is not a function of
the candidate line and its successor.  Both documents hold the same
candidate at position 2 and the same successor at position 3, yet the
decision differs, because `lines.index(line)` resolves to the first
occurrence of the candidate's text. -/
theorem lookahead_cex :
    ([xline, yline, xline, zline] : List (List Char)).get? 2
        = ([wline, yline, xline, zline] : List (List Char)).get? 2
  ∧ ([xline, yline, xline, zline] : List (List Char)).get? 3
        = ([wline, yline, xline, zline] : List (List Char)).get? 3
  ∧ endCheck [xline, yline, xline, zline] xline = some false
  ∧ endCheck [wline, yline, xline, zline] xline = some true := by
  refine ⟨rfl, rfl, rfl, rfl⟩

/-- C2 amended: the lookahead reads the successor of the first
occurrence of the candidate's text; when the candidate sits at its
text's first occurrence `i`, the decision is determined by line `i` and
line `i+1` alone. -/
theorem lookahead_first_occurrence (doc : List (List Char)) (i : Nat)
    (l : List Char) (hi : doc.get? i = some l)
    (hfirst : ∀ j, j < i → doc.get? j ≠ some l) :
    endCheck doc l = endCheckSpec l (doc.get? (i + 1)) := by
  unfold endCheck endCheckSpec
  rw [idxOf_of_getFirst doc i l hi hfirst]

/-- Witness for C2's amended statement: candidate at position 2, first
occurrence of its text, decision read off position 3. -/
theorem lookahead_first_occurrence_witness :
    endCheck [wline, yline, xline, zline] xline
      = endCheckSpec xline (([wline, yline, xline, zline] : List (List Char)).get? 3) :=
  lookahead_first_occurrence [wline, yline, xline, zline] 2 xline rfl (by decide)

/-- C5 counterexample: with the start marker on two lines, the payload
is inserted after each of them — twice, not once. -/
theorem first_match_cex :
    replaceBlock [mline, yline, mline, yline]
      = some ⟨[mline, new_code, mline, new_code], true, true⟩
  ∧ List.countP isPayload [mline, new_code, mline, new_code] = 2 := by
  constructor
  · rfl
  · simp [List.countP_cons, isPayload_new_code,
      isPayload_of_ne mline (by decide), isPayload_of_ne yline (by decide)]

/-- C5 amended: every line containing the start marker triggers an
insertion: the scan's output holds exactly one payload element per
marker line of the document (for documents none of whose lines equal
the payload text, as is the case for any `readlines` image). -/
theorem insertion_per_marker (doc : List (List Char)) (st : ScanState)
    (hnc : ∀ l ∈ doc, ¬ l = new_code)
    (h : replaceBlock doc = some st) :
    List.countP isPayload st.new_lines = List.countP isMarkerLine doc := by
  have := runStep_payload_count doc doc ⟨[], false, false⟩ st hnc h
  simpa using this

/-- Witness for C5's amended statement on the two-marker document. -/
theorem insertion_per_marker_witness :
    List.countP isPayload
        (⟨[mline, new_code, mline, new_code], true, true⟩ : ScanState).new_lines
      = List.countP isMarkerLine [mline, yline, mline, yline] :=
  insertion_per_marker [mline, yline, mline, yline]
    ⟨[mline, new_code, mline, new_code], true, true⟩ (by decide) rfl

/-- C7 counterexample: a completed run of `reconstruct_inventory.py`
prints no status line at all — its sole `print` sits inside the string
literal it writes, so the claim that every completed run prints exactly
one status line fails. -/
theorem status_line_cex : ¬ ((reconstructRun (yline ++ tline)).printed.length = 1) := by
  decide

/-- C7 amended: a run of `fix_builtup.py` that completes prints exactly
one status line (success or not-found); a run of
`reconstruct_inventory.py` prints none. -/
theorem status_lines (content prior : List Char) (o : Outcome)
    (h : fixBuiltupRun content = some o) :
    o.printed.length = 1 ∧ (reconstructRun prior).printed.length = 0 := by
  refine ⟨?_, rfl⟩
  unfold fixBuiltupRun at h
  cases hr : replaceBlock (readlines content) with
  | none =>
    simp only [hr] at h
    exact Option.noConfusion h
  | some st =>
    simp only [hr] at h
    by_cases hf : st.found_marker = true
    · rw [if_pos hf] at h
      injection h with h2
      rw [← h2]
      rfl
    · rw [if_neg hf] at h
      injection h with h2
      rw [← h2]
      rfl

/-- Witness for C7's amended statement: a not-found run of the first
script and any run of the second. -/
theorem status_lines_witness :
    (⟨yline ++ tline, false, [notFoundMsg]⟩ : Outcome).printed.length = 1
  ∧ (reconstructRun tline).printed.length = 0 :=
  status_lines (yline ++ tline) tline ⟨yline ++ tline, false, [notFoundMsg]⟩ rfl
/-- When the marker is hit and every remaining line keeps the end test
at `some false`, the scan ends still skipping: marker prefix plus
payload, tail dropped. -/
theorem replaceBlock_unterminated (pre rest : List (List Char)) (ml : List Char)
    (hml : isMarkerLine ml = true)
    (hpre : ∀ l ∈ pre, isMarkerLine l = false)
    (hrest : ∀ l ∈ rest, isMarkerLine l = false)
    (hrestEnd : ∀ l ∈ rest, endCheck (pre ++ ml :: rest) l = some false) :
    replaceBlock (pre ++ ml :: rest) = some ⟨pre ++ [ml, new_code], true, true⟩ := by
  unfold replaceBlock
  rw [runStep_append, runStep_copy _ pre [] false hpre]
  simp only [Option.bind, List.nil_append]
  rw [runStep_cons_some _ _ _ _ _ (step_marker _ _ _ hml)]
  rw [runStep_skip _ rest (pre ++ [ml, new_code]) true hrest hrestEnd]

/-- C9 counterexample: a document whose marker is found and none of
whose lines satisfies the end-of-region condition, yet the run does not
write a truncated file — it aborts (the final candidate's lookahead
indexes out of range), so the claim that such runs always write fails. -/
theorem unterminated_cex :
    isMarkerLine mline = true
  ∧ (∀ l ∈ readlines (mline ++ yline ++ xline),
      endCheck (readlines (mline ++ yline ++ xline)) l ≠ some true)
  ∧ fixBuiltupRun (mline ++ yline ++ xline) = none := by
  refine ⟨rfl, by decide, rfl⟩

/-- C9 amended: when the marker is on exactly one line and the end test
answers `some false` on every later line (no boundary, no out-of-range
lookahead), the run still overwrites the file with the lines up to and
including the marker line followed by the payload; every original line
after the marker is silently dropped. -/
theorem unterminated_writes (content : List Char)
    (pre rest : List (List Char)) (ml : List Char)
    (hsplit : readlines content = pre ++ ml :: rest)
    (hml : isMarkerLine ml = true)
    (hpre : ∀ l ∈ pre, isMarkerLine l = false)
    (hrest : ∀ l ∈ rest, isMarkerLine l = false)
    (hrestEnd : ∀ l ∈ rest, endCheck (pre ++ ml :: rest) l = some false) :
    fixBuiltupRun content
      = some ⟨writelines (pre ++ [ml, new_code]), true, [successMsg]⟩ := by
  unfold fixBuiltupRun
  rw [hsplit, replaceBlock_unterminated pre rest ml hml hpre hrest hrestEnd]
  rfl

/-- Witness for C9's amended statement: marker line followed by one
neutral line; the output file holds the marker line and the payload. -/
theorem unterminated_writes_witness :
    fixBuiltupRun (mline ++ yline)
      = some ⟨writelines ([] ++ [mline, new_code]), true, [successMsg]⟩ :=
  unterminated_writes (mline ++ yline) [] [yline] mline rfl rfl (by simp)
    (by decide) (by decide)

/-- C4: Idempotence is not guaranteed.  The four-line document
`c4content` satisfies the exactly-one-marker and valid-boundary
precondition, a first run splices the payload in place, but a second
run over that output drops everything after the payload: the payload's
own first line is now the first occurrence of the boundary text, so the
aliased lookahead never sees `fetchSystemData` and skipping never
stops.  Applying the operation to its own output differs from applying
it once. -/
theorem idempotence_fails :
    List.countP isMarkerLine (readlines c4content) = 1
  ∧ endCheck (readlines c4content) xline = some true
  ∧ fixBuiltupRun c4content
      = some ⟨writelines [mline, new_code, xline, zline, tline], true, [successMsg]⟩
  ∧ fixBuiltupRun (writelines [mline, new_code, xline, zline, tline])
      = some ⟨writelines [mline, new_code], true, [successMsg]⟩
  ∧ writelines [mline, new_code] ≠ writelines [mline, new_code, xline, zline, tline] := by
  refine ⟨rfl, rfl, rfl, rfl, ?_⟩
  intro hEq
  have h2 : new_code = new_code ++ (xline ++ (zline ++ tline)) := by
    simp only [writelines, List.flatten_cons, List.flatten_nil,
      List.append_nil] at hEq
    exact List.append_cancel_left hEq
  have hlen := congrArg List.length h2
  simp only [List.length_append] at hlen
  have hx : xline.length = 22 := rfl
  omega
